import Mathlib

set_option maxRecDepth 1000000

/-!
Verification development for the Shopier payment SDK.

The TypeScript sources are shallowly embedded: strings are Lean `String`s
(sequences of Unicode scalar values, matching well-formed JS strings),
byte buffers are `List Nat` with each element < 256, JS numbers appearing
in the payment flow are modelled as `ℚ` (every concrete value used by the
library has a short, finite decimal expansion, on which the JS default
number-to-string rendering agrees with exact decimal rendering), and
functions that can `throw` return `Except ShopierError α`.
-/

namespace Shopier

/-! ### UTF-8 encoding (model of `Buffer.from(s, 'utf8')` / `hmac.update(s)`) -/

/-- UTF-8 bytes of a single Unicode scalar value. -/
def utf8Char (c : Char) : List Nat :=
  let n := c.toNat
  if n < 0x80 then [n]
  else if n < 0x800 then [0xC0 ||| (n >>> 6), 0x80 ||| (n &&& 0x3F)]
  else if n < 0x10000 then
    [0xE0 ||| (n >>> 12), 0x80 ||| ((n >>> 6) &&& 0x3F), 0x80 ||| (n &&& 0x3F)]
  else
    [0xF0 ||| (n >>> 18), 0x80 ||| ((n >>> 12) &&& 0x3F),
     0x80 ||| ((n >>> 6) &&& 0x3F), 0x80 ||| (n &&& 0x3F)]

def utf8List : List Char → List Nat
  | [] => []
  | c :: cs => utf8Char c ++ utf8List cs

/-- UTF-8 bytes of a string. -/
def utf8Encode (s : String) : List Nat := utf8List s.data

/-! ### SHA-256 (model of node `crypto`'s `sha256`), on `List Nat` bytes -/

def mask32 : Nat := 0xFFFFFFFF

def add32 (a b : Nat) : Nat := (a + b) % 0x100000000

def rotr (k x : Nat) : Nat := ((x >>> k) ||| (x <<< (32 - k))) &&& mask32

def xor3 (a b c : Nat) : Nat := Nat.xor (Nat.xor a b) c

def ch (x y z : Nat) : Nat := Nat.xor (x &&& y) ((Nat.xor x mask32) &&& z)

def maj (x y z : Nat) : Nat := xor3 (x &&& y) (x &&& z) (y &&& z)

def bigSigma0 (x : Nat) : Nat := xor3 (rotr 2 x) (rotr 13 x) (rotr 22 x)

def bigSigma1 (x : Nat) : Nat := xor3 (rotr 6 x) (rotr 11 x) (rotr 25 x)

def smallSigma0 (x : Nat) : Nat := xor3 (rotr 7 x) (rotr 18 x) (x >>> 3)

def smallSigma1 (x : Nat) : Nat := xor3 (rotr 17 x) (rotr 19 x) (x >>> 10)

/-- The 64 SHA-256 round constants (FIPS 180-4), written in decimal. -/
def shaK : List Nat :=
  [1116352408, 1899447441, 3049323471, 3921009573, 961987163,
   1508970993, 2453635748, 2870763221, 3624381080, 310598401,
   607225278, 1426881987, 1925078388, 2162078206, 2614888103,
   3248222580, 3835390401, 4022224774, 264347078, 604807628,
   770255983, 1249150122, 1555081692, 1996064986, 2554220882,
   2821834349, 2952996808, 3210313671, 3336571891, 3584528711,
   113926993, 338241895, 666307205, 773529912, 1294757372,
   1396182291, 1695183700, 1986661051, 2177026350, 2456956037,
   2730485921, 2820302411, 3259730800, 3345764771, 3516065817,
   3600352804, 4094571909, 275423344, 430227734, 506948616,
   659060556, 883997877, 958139571, 1322822218, 1537002063,
   1747873779, 1955562222, 2024104815, 2227730452, 2361852424,
   2428436474, 2756734187, 3204031479, 3329325298]

/-- Working state (a,b,c,d,e,f,g,h) of the compression function. -/
structure Hash8 where
  a : Nat
  b : Nat
  c : Nat
  d : Nat
  e : Nat
  f : Nat
  g : Nat
  h : Nat
deriving Repr, DecidableEq

def initH : Hash8 :=
  { a := 0x6a09e667, b := 0xbb67ae85, c := 0x3c6ef372, d := 0xa54ff53a,
    e := 0x510e527f, f := 0x9b05688c, g := 0x1f83d9ab, h := 0x5be0cd19 }

/-- Big-endian byte rendering, fixed width. -/
def beBytes : Nat → Nat → List Nat
  | 0, _ => []
  | n + 1, v => beBytes n (v >>> 8) ++ [v &&& 0xFF]

/-- SHA-256 padding: `0x80`, zeros, then the 64-bit big-endian bit length. -/
def padMessage (msg : List Nat) : List Nat :=
  let L := msg.length
  let padZeros := (119 - (L % 64)) % 64
  msg ++ [0x80] ++ List.replicate padZeros 0 ++ beBytes 8 (L * 8)

/-- Big-endian 32-bit words from bytes. -/
def toWords : List Nat → List Nat
  | b0 :: b1 :: b2 :: b3 :: rest =>
      ((((b0 <<< 8) ||| b1) <<< 8 ||| b2) <<< 8 ||| b3) :: toWords rest
  | _ => []

def scheduleStep (w : List Nat) : List Nat :=
  let t := w.length
  w ++ [(smallSigma1 (w.getD (t - 2) 0) + w.getD (t - 7) 0 +
         smallSigma0 (w.getD (t - 15) 0) + w.getD (t - 16) 0) % 0x100000000]

def schedule : List Nat → Nat → List Nat
  | w, 0 => w
  | w, n + 1 => schedule (scheduleStep w) n

def compressStep (kt wt : Nat) (s : Hash8) : Hash8 :=
  let t1 := (s.h + bigSigma1 s.e + ch s.e s.f s.g + kt + wt) % 0x100000000
  let t2 := (bigSigma0 s.a + maj s.a s.b s.c) % 0x100000000
  { a := (t1 + t2) % 0x100000000, b := s.a, c := s.b, d := s.c,
    e := (s.d + t1) % 0x100000000, f := s.e, g := s.f, h := s.g }

def compressRounds : List Nat → List Nat → Hash8 → Hash8
  | k :: ks, w :: ws, s => compressRounds ks ws (compressStep k w s)
  | _, _, s => s

def processBlock (h : Hash8) (block : List Nat) : Hash8 :=
  let w := schedule (toWords block) 48
  let s := compressRounds shaK w h
  { a := add32 h.a s.a, b := add32 h.b s.b, c := add32 h.c s.c, d := add32 h.d s.d,
    e := add32 h.e s.e, f := add32 h.f s.f, g := add32 h.g s.g, h := add32 h.h s.h }

def chunksAux : Nat → List Nat → List (List Nat)
  | 0, _ => []
  | _ + 1, [] => []
  | fuel + 1, l => l.take 64 :: chunksAux fuel (l.drop 64)

/-- Split into 64-byte blocks (fuel-driven, total). -/
def chunks64 (l : List Nat) : List (List Nat) := chunksAux l.length l

/-- SHA-256 digest (32 bytes) of a byte list. -/
def sha256 (msg : List Nat) : List Nat :=
  let fin := (chunks64 (padMessage msg)).foldl processBlock initH
  beBytes 4 fin.a ++ beBytes 4 fin.b ++ beBytes 4 fin.c ++ beBytes 4 fin.d ++
  beBytes 4 fin.e ++ beBytes 4 fin.f ++ beBytes 4 fin.g ++ beBytes 4 fin.h

/-- HMAC-SHA256 (model of `createHmac('sha256', secret)`), block size 64. -/
def hmacSha256 (key msg : List Nat) : List Nat :=
  let k0 := if key.length > 64 then sha256 key else key
  let kp := k0 ++ List.replicate (64 - k0.length) 0
  let ipadKey := kp.map (fun b => Nat.xor b 0x36)
  let opadKey := kp.map (fun b => Nat.xor b 0x5C)
  sha256 (opadKey ++ sha256 (ipadKey ++ msg))

/-! ### Base64 (model of `Buffer.digest('base64')`) -/

def b64Alphabet : List Char :=
  "ABCDEFGHIJKLMNOPQRSTUVWXYZabcdefghijklmnopqrstuvwxyz0123456789+/".data

def b64Char (n : Nat) : Char := b64Alphabet.getD n 'A'

def b64Groups : List Nat → List Char
  | b0 :: b1 :: b2 :: rest =>
      let n := (b0 <<< 16) ||| (b1 <<< 8) ||| b2
      b64Char (n >>> 18) :: b64Char ((n >>> 12) &&& 63) ::
      b64Char ((n >>> 6) &&& 63) :: b64Char (n &&& 63) :: b64Groups rest
  | [b0, b1] =>
      let n := (b0 <<< 16) ||| (b1 <<< 8)
      [b64Char (n >>> 18), b64Char ((n >>> 12) &&& 63), b64Char ((n >>> 6) &&& 63), '=']
  | [b0] =>
      let n := b0 <<< 16
      [b64Char (n >>> 18), b64Char ((n >>> 12) &&& 63), '=', '=']
  | [] => []

/-- Standard base64 rendering of a byte list. -/
def base64Encode (bytes : List Nat) : String := String.mk (b64Groups bytes)

/-! ### Signature engine — `core/signature.ts` -/

/-- `generateSignature(secret, data)`: base64 HMAC-SHA256 over UTF-8 bytes. -/
def generateSignature (secret data : String) : String :=
  base64Encode (hmacSha256 (utf8Encode secret) (utf8Encode data))

/-- `verifySignature(secret, data, signature)`: recompute, compare UTF-8 byte
lengths first, then compare the buffers (`timingSafeEqual`).  The source's
`try`/`catch` can only convert an exception into `false`; in this total model
nothing throws, so the function is a plain `Bool`. -/
def verifySignature (secret data signature : String) : Bool :=
  let expected := generateSignature secret data
  let expectedBuffer := utf8Encode expected
  let signatureBuffer := utf8Encode signature
  if expectedBuffer.length ≠ signatureBuffer.length then false
  else expectedBuffer == signatureBuffer

/-! ### JS number rendering

JS `${n}` / `String(n)`.  Numeric form-data values are modelled as `ℚ`
(amounts) or `Nat` (codes, counts, nonces).  `ratToString` is the exact
decimal rendering, which coincides with the JS default double rendering on
every value with a short finite decimal expansion (all values used here). -/

def digitChar : Nat → Char
  | 0 => '0' | 1 => '1' | 2 => '2' | 3 => '3' | 4 => '4'
  | 5 => '5' | 6 => '6' | 7 => '7' | 8 => '8' | 9 => '9'
  | _ => '*'

def natDigitsAux : Nat → Nat → List Char
  | 0, _ => []
  | fuel + 1, n => if n < 10 then [digitChar n] else natDigitsAux fuel (n / 10) ++ [digitChar (n % 10)]

def natToStr (n : Nat) : String := String.mk (natDigitsAux (n + 1) n)

/-- Decimal digits of the fractional part `0 ≤ q < 1`, fuel-bounded. -/
def fracDigits : Nat → ℚ → List Char
  | 0, _ => []
  | fuel + 1, q =>
      if q = 0 then []
      else
        let q10 := q * 10
        let d := (Rat.floor q10).toNat
        digitChar d :: fracDigits fuel (q10 - d)

def ratToStringNN (q : ℚ) : String :=
  let ip := (Rat.floor q).toNat
  let fp := q - Rat.floor q
  if fp = 0 then natToStr ip else natToStr ip ++ "." ++ String.mk (fracDigits 40 fp)

def ratToString (q : ℚ) : String :=
  if q < 0 then "-" ++ ratToStringNN (-q) else ratToStringNN q

/-- `generatePaymentSignature(secret, randomNr, orderId, amount, currency)`:
HMAC over the template-literal concatenation. -/
def generatePaymentSignature (secret : String) (randomNr : Nat) (orderId : String)
    (amount : ℚ) (currency : Nat) : String :=
  generateSignature secret (natToStr randomNr ++ orderId ++ ratToString amount ++ natToStr currency)

/-- `generateCallbackSignature(secret, randomNr, orderId)`: raw-string concat. -/
def generateCallbackSignature (secret randomNr orderId : String) : String :=
  generateSignature secret (randomNr ++ orderId)

/-! ### Small string utilities: JS whitespace, trim, lower-casing, substrings -/

/-- The apostrophe character. -/
def apos : Char := Char.ofNat 39

/-- JS `\s` / `String.prototype.trim` whitespace set. -/
def jsWs (c : Char) : Bool :=
  let n := c.toNat
  n == 32 || (9 ≤ n && n ≤ 13) || n == 0xA0 || n == 0x1680 ||
  (0x2000 ≤ n && n ≤ 0x200A) || n == 0x2028 || n == 0x2029 ||
  n == 0x202F || n == 0x205F || n == 0x3000 || n == 0xFEFF

/-- JS `s.trim()`. -/
def jsTrim (s : String) : String :=
  String.mk (((s.data.dropWhile jsWs).reverse.dropWhile jsWs).reverse)

/-- ASCII lower-casing; models JS `toLowerCase` on the ASCII keys used here. -/
def toLowerAscii (s : String) : String :=
  String.mk (s.data.map fun c =>
    if 65 ≤ c.toNat && c.toNat ≤ 90 then Char.ofNat (c.toNat + 32) else c)

def isAsciiDigit (c : Char) : Bool := '0' ≤ c && c ≤ '9'

/-- `p` is a prefix of `s` (executable). -/
def isPrefixB : List Char → List Char → Bool
  | [], _ => true
  | _ :: _, [] => false
  | a :: as, b :: bs => a == b && isPrefixB as bs

/-- `p` occurs as a contiguous segment of `s` (executable, models JS `includes`). -/
def containsSeg (p : List Char) : List Char → Bool
  | [] => isPrefixB p []
  | c :: t => isPrefixB p (c :: t) || containsSeg p t

/-- Substring test on strings. -/
def strContains (s p : String) : Bool := containsSeg p.data s.data

/-- JS `arr.join(sep)` / the manual interleaving used by the renderers. -/
def joinSep (sep : String) : List String → String
  | [] => ""
  | [x] => x
  | x :: y :: xs => x ++ sep ++ joinSep sep (y :: xs)

/-! ### Escaping utility — `utils/escape-html.ts` -/

/-- Per-character entity substitution of the `HTML_ESCAPE_MAP`. -/
def escChar (c : Char) : String :=
  if c = '&' then "&amp;"
  else if c = '<' then "&lt;"
  else if c = '>' then "&gt;"
  else if c = '"' then "&quot;"
  else if c = apos then "&#x27;"
  else String.mk [c]

def escapeList : List Char → List Char
  | [] => []
  | c :: cs => (escChar c).data ++ escapeList cs

/-- `escapeHtml(input)`: `input.replace(/[&<>"']/g, ch => HTML_ESCAPE_MAP[ch])`.
(The `typeof input !== 'string'` guard is vacuous for `String` inputs.) -/
def escapeHtml (s : String) : String := String.mk (escapeList s.data)

/-- The five characters rewritten by `escapeHtml`. -/
def specialChars : List Char := ['&', '<', '>', '"', apos]

/-! ### Errors — `errors/base.ts` and subclasses -/

inductive DetailVal where
  | str : String → DetailVal
  | num : ℚ → DetailVal
  | strList : List String → DetailVal
deriving Repr, DecidableEq

abbrev Details := List (String × DetailVal)

/-- Tagged-record model of the `ShopierError` class hierarchy: `name` plays the
role of the subclass identity, `code` the machine-readable code. -/
structure ShopierError where
  name : String
  message : String
  code : String
  details : Option Details
deriving Repr, DecidableEq

def mkInvalidApiKeyError (message : String) (details : Option Details) : ShopierError :=
  { name := "InvalidApiKeyError", message := message, code := "INVALID_API_KEY", details := details }

def mkInvalidApiSecretError (message : String) (details : Option Details) : ShopierError :=
  { name := "InvalidApiSecretError", message := message, code := "INVALID_API_SECRET", details := details }

def mkValidationError (message : String) (details : Option Details) : ShopierError :=
  { name := "ValidationError", message := message, code := "VALIDATION_ERROR", details := details }

def mkSignatureValidationError (message : String) (details : Option Details) : ShopierError :=
  { name := "SignatureValidationError", message := message,
    code := "SIGNATURE_VALIDATION_ERROR", details := details }

def SENSITIVE_FIELDS : List String :=
  ["email", "phone", "value", "password", "secret", "token", "apiSecret", "apiKey"]

def REDACTED : String := "[REDACTED]"

def isSensitiveKey (key : String) : Bool :=
  SENSITIVE_FIELDS.any fun f => strContains (toLowerAscii key) (toLowerAscii f)

/-- `ShopierError.getSafeDetails()`. -/
def getSafeDetails (e : ShopierError) : Option Details :=
  e.details.map (List.map fun kv =>
    if isSensitiveKey kv.1 then (kv.1, DetailVal.str REDACTED) else kv)

structure SafeJSON where
  name : String
  message : String
  code : String
  details : Option Details
deriving Repr, DecidableEq

/-- `ShopierError.toSafeJSON()`. -/
def toSafeJSON (e : ShopierError) : SafeJSON :=
  { name := e.name, message := e.message, code := e.code, details := getSafeDetails e }

/-! ### Enums — `enums/*.ts` (wire-contract numeric codes) -/

namespace Currency
def TL : Nat := 0
def USD : Nat := 1
def EUR : Nat := 2
end Currency

namespace Language
def TR : Nat := 0
def EN : Nat := 1
end Language

namespace ProductType
def REAL_OBJECT : Nat := 0
def DOWNLOADABLE_VIRTUAL : Nat := 1
def DEFAULT : Nat := 2
end ProductType

namespace PlatformType
def IN_FRAME : Nat := 0
def NOT_IN_FRAME : Nat := 1
end PlatformType

namespace WebsiteIndex
def SITE_1 : Nat := 1
def SITE_2 : Nat := 2
def SITE_3 : Nat := 3
def SITE_4 : Nat := 4
def SITE_5 : Nat := 5
end WebsiteIndex

/-! ### Validator — `core/validator.ts`

`BuyerInfo`'s required members are modelled as `Option String` so that the
runtime `undefined`/`null` cases guarded by the validator are representable;
`none` stands for an absent/null field. -/

structure BuyerInfo where
  id : Option String
  platformOrderId : Option String
  productName : Option String
  productType : Option Nat
  firstName : Option String
  lastName : Option String
  email : Option String
  phone : Option String
  accountAge : Option Nat
deriving Repr, DecidableEq

/-- `value === undefined || value === null || value.trim() === ''`. -/
def blankOpt : Option String → Bool
  | none => true
  | some s => jsTrim s == ""

def noAtWs (l : List Char) : Bool := l.all fun c => !(jsWs c) && c ≠ '@'

/-- Match of `/^[^\s@]+@[^\s@]+\.[^\s@]+$/`: since neither side of the `@`
may contain `@`, the separator is the first `@`, the local part is nonempty
and `@`/whitespace-free, and the remainder is `@`/whitespace-free with a dot
at an interior position. -/
def matchesEmailRegex (t : List Char) : Bool :=
  let l := t.takeWhile (· ≠ '@')
  match t.dropWhile (· ≠ '@') with
  | '@' :: r => !l.isEmpty && noAtWs l && noAtWs r && ((r.drop 1).dropLast.contains '.')
  | _ => false

/-- `validateEmail(email)`. -/
def validateEmail (email : String) : Bool :=
  if email = "" then false
  else matchesEmailRegex (jsTrim email).data

/-- `validatePhone(phone)`: strip `/[\s\-\(\)\+]/g`, then `/^\d{7,15}$/`. -/
def validatePhone (phone : String) : Bool :=
  if phone = "" then false
  else
    let digitsOnly := phone.data.filter fun c => !(jsWs c || c = '-' || c = '(' || c = ')' || c = '+')
    digitsOnly.all isAsciiDigit && 7 ≤ digitsOnly.length && digitsOnly.length ≤ 15

/-- The `requiredFields` list, in source order, paired with the field values. -/
def requiredPairs (b : BuyerInfo) : List (String × Option String) :=
  [("id", b.id), ("firstName", b.firstName), ("lastName", b.lastName),
   ("email", b.email), ("phone", b.phone), ("productName", b.productName)]

/-- The `missingFields` accumulator of `validateBuyer`. -/
def missingFields (b : BuyerInfo) : List String :=
  (requiredPairs b).filterMap fun kv => if blankOpt kv.2 then some kv.1 else none

/-- `validateBuyer(buyer)`. -/
def validateBuyer (b : BuyerInfo) : Except ShopierError Unit :=
  if missingFields b ≠ [] then
    .error (mkValidationError
      ("Missing required buyer fields: " ++ joinSep ", " (missingFields b))
      (some [("missingFields", DetailVal.strList (missingFields b))]))
  else if !validateEmail (b.email.getD "") then
    .error (mkValidationError "Invalid email format"
      (some [("field", DetailVal.str "email"), ("value", DetailVal.str (b.email.getD ""))]))
  else if !validatePhone (b.phone.getD "") then
    .error (mkValidationError "Invalid phone number format"
      (some [("field", DetailVal.str "phone"), ("value", DetailVal.str (b.phone.getD ""))]))
  else .ok ()

/-- `validateAmount(amount)`; `ℚ` amounts are always finite, so the
`Number.isFinite` conjunct reduces to the sign test. -/
def validateAmount (amount : ℚ) : Except ShopierError Unit :=
  if amount ≤ 0 then
    .error (mkValidationError "Amount must be a valid positive number"
      (some [("field", DetailVal.str "amount"), ("value", DetailVal.num amount)]))
  else .ok ()

/-- `validateInstallment(installment)`; `Int` values are always integers, so
the `Number.isInteger` conjunct reduces to the range test. -/
def validateInstallment (installment : Int) : Except ShopierError Unit :=
  if installment < 0 || installment > 12 then
    .error (mkValidationError "Installment must be an integer between 0 and 12"
      (some [("field", DetailVal.str "installment"), ("value", DetailVal.num installment)]))
  else .ok ()

/-! ### Configuration resolver — `core/config.ts`

`process.env` is modelled as an explicit lookup `EnvMap`. -/

abbrev EnvMap := String → Option String

structure ShopierConfig where
  apiKey : Option String
  apiSecret : Option String
  language : Option Nat
  moduleVersion : Option String
  websiteIndex : Option Nat
deriving Repr, DecidableEq

def emptyShopierConfig : ShopierConfig := ⟨none, none, none, none, none⟩

structure ResolvedConfig where
  apiKey : String
  apiSecret : String
  language : Nat
  moduleVersion : String
  websiteIndex : Nat
deriving Repr, DecidableEq

/-- JS truthiness + trim test used by both credential resolvers:
`if (v && v.trim() !== '') return v.trim()`. -/
def trimmedNonBlank : Option String → Option String
  | some s => if s ≠ "" && jsTrim s ≠ "" then some (jsTrim s) else none
  | none => none

/-- `resolveApiKey(configValue)`. -/
def resolveApiKey (env : EnvMap) (configValue : Option String) : Option String :=
  match trimmedNonBlank configValue with
  | some v => some v
  | none => trimmedNonBlank (env "SHOPIER_API_KEY")

/-- `resolveApiSecret(configValue)`. -/
def resolveApiSecret (env : EnvMap) (configValue : Option String) : Option String :=
  match trimmedNonBlank configValue with
  | some v => some v
  | none => trimmedNonBlank (env "SHOPIER_API_SECRET")

/-- `resolveConfig(config)`: key resolved and checked before secret. -/
def resolveConfig (env : EnvMap) (config : ShopierConfig) : Except ShopierError ResolvedConfig :=
  let apiKey := resolveApiKey env config.apiKey
  let apiSecret := resolveApiSecret env config.apiSecret
  match apiKey with
  | none => .error (mkInvalidApiKeyError "API key is missing or empty" none)
  | some k =>
    match apiSecret with
    | none => .error (mkInvalidApiSecretError "API secret is missing or empty" none)
    | some s =>
      .ok { apiKey := k, apiSecret := s,
            language := config.language.getD Language.TR,
            moduleVersion := config.moduleVersion.getD "1.0.4",
            websiteIndex := config.websiteIndex.getD WebsiteIndex.SITE_1 }

/-- `Partial<ShopierConfig>` for `ConfigManager.updateConfig`; `none` models
an absent (`undefined`) update entry. -/
structure ConfigUpdates where
  apiKey : Option String
  apiSecret : Option String
  language : Option Nat
  moduleVersion : Option String
  websiteIndex : Option Nat
deriving Repr, DecidableEq

def noUpdates : ConfigUpdates := ⟨none, none, none, none, none⟩

/-- The unconditional tail of `updateConfig` (language / version / index). -/
def updateTail (cfg : ResolvedConfig) (updates : ConfigUpdates) : ResolvedConfig :=
  let c1 := match updates.language with
    | some l => { cfg with language := l }
    | none => cfg
  let c2 := match updates.moduleVersion with
    | some m => { c1 with moduleVersion := m }
    | none => c1
  match updates.websiteIndex with
  | some w => { c2 with websiteIndex := w }
  | none => c2

/-- `updateConfig` from the secret step onwards (the key step already ran). -/
def updateAfterKey (env : EnvMap) (cfg : ResolvedConfig) (updates : ConfigUpdates) :
    Except ShopierError Unit × ResolvedConfig :=
  match updates.apiSecret with
  | some v =>
      match resolveApiSecret env (some v) with
      | none => (.error (mkInvalidApiSecretError "API secret is missing or empty" none), cfg)
      | some s => (.ok (), updateTail { cfg with apiSecret := s } updates)
  | none => (.ok (), updateTail cfg updates)

/-- `ConfigManager.updateConfig(updates)`: field-by-field in-place mutation,
modelled as a state transformer.  The second component is the stored
configuration after the call returns or throws. -/
def updateConfig (env : EnvMap) (cfg : ResolvedConfig) (updates : ConfigUpdates) :
    Except ShopierError Unit × ResolvedConfig :=
  match updates.apiKey with
  | some v =>
      match resolveApiKey env (some v) with
      | none => (.error (mkInvalidApiKeyError "API key is missing or empty" none), cfg)
      | some k => updateAfterKey env { cfg with apiKey := k } updates
  | none => updateAfterKey env cfg updates

/-! ### Payment builder — `core/shopier.ts` -/

structure Address where
  address : String
  city : String
  country : String
  postcode : String
deriving Repr, DecidableEq

def emptyAddress : Address := ⟨"", "", "", ""⟩

structure PaymentOptions where
  amount : ℚ
  buyer : BuyerInfo
  billing : Option Address
  shipping : Option Address
  currency : Option Nat
  maxInstallment : Option Int
  language : Option Nat
  productType : Option Nat
  platformType : Option Nat
  websiteIndex : Option Nat
  isInFrame : Option Bool
  randomNr : Option Nat
deriving Repr, DecidableEq

/-- The canonical field set, fields in the insertion order of the object
literal returned by `buildFormData` (= `Object.entries` iteration order). -/
structure FormData where
  API_key : String
  website_index : Nat
  platform_order_id : String
  product_name : String
  product_type : Nat
  buyer_name : String
  buyer_surname : String
  buyer_email : String
  buyer_account_age : Nat
  buyer_id_nr : String
  buyer_phone : String
  billing_address : String
  billing_city : String
  billing_country : String
  billing_postcode : String
  shipping_address : String
  shipping_city : String
  shipping_country : String
  shipping_postcode : String
  total_order_value : ℚ
  currency : Nat
  platform : Int
  is_in_frame : Nat
  current_language : Nat
  modul_version : String
  random_nr : Nat
  signature : String
deriving Repr, DecidableEq

def intToStr : Int → String
  | .ofNat n => natToStr n
  | .negSucc n => "-" ++ natToStr (n + 1)

/-- `orderId = buyer.platformOrderId || buyer.id` (`||` treats `''` as falsy). -/
def resolveOrderId (b : BuyerInfo) : String :=
  match b.platformOrderId with
  | some p => if p = "" then b.id.getD "" else p
  | none => b.id.getD ""

/-- The field-set record literal at the end of `buildFormData`, as a pure
function of the (already validated) options.  The `.getD ""` projections of
the buyer's string members model the direct member accesses of the source;
they are reached only after `validateBuyer` succeeded, where the members
are present and non-blank. -/
def assembleFormData (cfg : ResolvedConfig) (freshRandom : Nat) (options : PaymentOptions) :
    FormData :=
  let amount := options.amount
  let buyer := options.buyer
  let currency := options.currency.getD Currency.TL
  let maxInstallment := options.maxInstallment.getD 0
  let language := options.language.getD cfg.language
  let productType := options.productType.getD ProductType.REAL_OBJECT
  let platformType := options.platformType.getD PlatformType.NOT_IN_FRAME
  let websiteIndex := options.websiteIndex.getD cfg.websiteIndex
  let isInFrame := options.isInFrame.getD false
  let randomNr := options.randomNr.getD freshRandom
  let orderId := resolveOrderId buyer
  let signature := generatePaymentSignature cfg.apiSecret randomNr orderId amount currency
  let finalProductType := buyer.productType.getD productType
  let billingAddr := options.billing.getD emptyAddress
  let shippingAddr := match options.shipping with
    | some s => s
    | none => options.billing.getD emptyAddress
  { API_key := cfg.apiKey,
    website_index := websiteIndex,
    platform_order_id := orderId,
    product_name := buyer.productName.getD "",
    product_type := finalProductType,
    buyer_name := buyer.firstName.getD "",
    buyer_surname := buyer.lastName.getD "",
    buyer_email := buyer.email.getD "",
    buyer_account_age := buyer.accountAge.getD 0,
    buyer_id_nr := buyer.id.getD "",
    buyer_phone := buyer.phone.getD "",
    billing_address := billingAddr.address,
    billing_city := billingAddr.city,
    billing_country := billingAddr.country,
    billing_postcode := billingAddr.postcode,
    shipping_address := shippingAddr.address,
    shipping_city := shippingAddr.city,
    shipping_country := shippingAddr.country,
    shipping_postcode := shippingAddr.postcode,
    total_order_value := amount,
    currency := currency,
    platform := maxInstallment,
    is_in_frame := if isInFrame then PlatformType.IN_FRAME else platformType,
    current_language := language,
    modul_version := cfg.moduleVersion,
    random_nr := randomNr,
    signature := signature }

/-- `Shopier.buildFormData(options)`: validations in source order, then the
assembled field set.  `freshRandom` stands for the value
`generateRandomNumber()` would produce; it is consulted only when the
caller supplies no `randomNr` override. -/
def buildFormData (cfg : ResolvedConfig) (freshRandom : Nat) (options : PaymentOptions) :
    Except ShopierError FormData := do
  validateAmount options.amount
  validateBuyer options.buyer
  if options.maxInstallment.getD 0 ≠ 0 then validateInstallment (options.maxInstallment.getD 0)
  else pure ()
  pure (assembleFormData cfg freshRandom options)

/-! ### Renderers — `renderers/*.ts` -/

/-- `Object.entries(formData)` with each value passed through `String(·)`. -/
def fieldPairs (fd : FormData) : List (String × String) :=
  [("API_key", fd.API_key),
   ("website_index", natToStr fd.website_index),
   ("platform_order_id", fd.platform_order_id),
   ("product_name", fd.product_name),
   ("product_type", natToStr fd.product_type),
   ("buyer_name", fd.buyer_name),
   ("buyer_surname", fd.buyer_surname),
   ("buyer_email", fd.buyer_email),
   ("buyer_account_age", natToStr fd.buyer_account_age),
   ("buyer_id_nr", fd.buyer_id_nr),
   ("buyer_phone", fd.buyer_phone),
   ("billing_address", fd.billing_address),
   ("billing_city", fd.billing_city),
   ("billing_country", fd.billing_country),
   ("billing_postcode", fd.billing_postcode),
   ("shipping_address", fd.shipping_address),
   ("shipping_city", fd.shipping_city),
   ("shipping_country", fd.shipping_country),
   ("shipping_postcode", fd.shipping_postcode),
   ("total_order_value", ratToString fd.total_order_value),
   ("currency", natToStr fd.currency),
   ("platform", intToStr fd.platform),
   ("is_in_frame", natToStr fd.is_in_frame),
   ("current_language", natToStr fd.current_language),
   ("modul_version", fd.modul_version),
   ("random_nr", natToStr fd.random_nr),
   ("signature", fd.signature)]

/-- One escaped `<input type="hidden" .../>` element. -/
def inputTag (kv : String × String) : String :=
  "<input type=\"hidden\" name=\"" ++ escapeHtml kv.1 ++ "\" value=\"" ++ escapeHtml kv.2 ++ "\" />"

/-- `renderHiddenInputs(formData)`. -/
def renderHiddenInputs (fd : FormData) : String :=
  joinSep "\n" ((fieldPairs fd).map inputTag)

/-- The localized loading message of the auto-submit page. -/
def loadingMessageFor (language : Nat) : String :=
  if language == Language.EN then "Redirecting to payment page..."
  else "Ödeme sayfasına yönlendiriliyorsunuz..."

/-- Template text of the auto-submit page up to the loading message
(braces of the inline CSS written as character escapes). -/
def autosubmitPre : String :=
  "<!DOCTYPE html>\n<html>\n<head>\n  <meta charset=\"UTF-8\">\n  <meta name=\"viewport\" content=\"width=device-width, initial-scale=1.0\">\n  <title>Shopier Payment</title>\n  <style>\n    body \x7b\n      font-family: -apple-system, BlinkMacSystemFont, \x27Segoe UI\x27, Roboto, sans-serif;\n      display: flex;\n      justify-content: center;\n      align-items: center;\n      height: 100vh;\n      margin: 0;\n      background-color: #f5f5f5;\n    \x7d\n    .loading \x7b\n      text-align: center;\n      color: #333;\n    \x7d\n    .spinner \x7b\n      border: 3px solid #f3f3f3;\n      border-top: 3px solid #3498db;\n      border-radius: 50%;\n      width: 40px;\n      height: 40px;\n      animation: spin 1s linear infinite;\n      margin: 0 auto 20px;\n    \x7d\n    @keyframes spin \x7b\n      0% \x7b transform: rotate(0deg); \x7d\n      100% \x7b transform: rotate(360deg); \x7d\n    \x7d\n  </style>\n</head>\n<body>\n  <div class=\"loading\">\n    <div class=\"spinner\"></div>\n    <p>"

/-- Template text between the loading message and the action URL. -/
def autosubmitMid1 : String :=
  "</p>\n  </div>\n  <form id=\"shopier-form\" action=\""

/-- Template text between the action URL and the hidden inputs. -/
def autosubmitMid2 : String := "\" method=\"POST\">\n"

/-- Template text after the hidden inputs. -/
def autosubmitTail : String :=
  "\n  </form>\n  <script>\n    document.getElementById(\x27shopier-form\x27).submit();\n  </script>\n</body>\n</html>"

/-- `renderAutoSubmitHTML(formData, actionUrl, language)`: the template
literal with its three interpolations (escaped loading message, escaped
action URL, hidden inputs). -/
def renderAutoSubmitHTML (fd : FormData) (actionUrl : String) (language : Nat) : String :=
  autosubmitPre ++ escapeHtml (loadingMessageFor language) ++ autosubmitMid1 ++
  escapeHtml actionUrl ++ autosubmitMid2 ++ renderHiddenInputs fd ++ autosubmitTail

def SHOPIER_ACTION_URL : String := "https://www.shopier.com/ShowProduct/api_pay4.php"

structure FormDataResult where
  formData : FormData
  actionUrl : String
deriving Repr, DecidableEq

/-- `getFormDataObject(formData, actionUrl)`: the plain-object renderer,
no escaping. -/
def getFormDataObject (fd : FormData) (actionUrl : String) : FormDataResult :=
  { formData := fd, actionUrl := actionUrl }

structure PaymentResult where
  html : String
  formData : FormData
  actionUrl : String
  hiddenInputs : String
deriving Repr, DecidableEq

/-- `Shopier.createPayment(options)`. -/
def createPayment (cfg : ResolvedConfig) (freshRandom : Nat) (options : PaymentOptions) :
    Except ShopierError PaymentResult := do
  let fd ← buildFormData cfg freshRandom options
  pure { html := renderAutoSubmitHTML fd SHOPIER_ACTION_URL (options.language.getD cfg.language),
         formData := fd,
         actionUrl := SHOPIER_ACTION_URL,
         hiddenInputs := renderHiddenInputs fd }

/-! ### Callback verifier — `Shopier.verifyCallback` -/

structure CallbackBody where
  random_nr : String
  platform_order_id : String
  payment_id : String
  installment : String
  status : String
  signature : String
deriving Repr, DecidableEq

structure CallbackResult where
  success : Bool
  orderId : String
  paymentId : String
  installment : Int
  platformOrderId : String
  status : String
deriving Repr, DecidableEq

def digitsVal (l : List Char) : Nat := l.foldl (fun a c => a * 10 + (c.toNat - 48)) 0

def digitsPrefixVal (l : List Char) : Option Nat :=
  let ds := l.takeWhile isAsciiDigit
  if ds.isEmpty then none else some (digitsVal ds)

/-- `parseInt(s, 10) || 0`: skip leading whitespace, optional sign, longest
digit prefix; `NaN` (no digits) collapses to `0` via `|| 0`, as does `0`. -/
def parseIntOr0 (s : String) : Int :=
  let t := s.data.dropWhile jsWs
  match t with
  | '-' :: rest => match digitsPrefixVal rest with
    | none => 0
    | some n => -(n : Int)
  | '+' :: rest => match digitsPrefixVal rest with
    | none => 0
    | some n => (n : Int)
  | l => match digitsPrefixVal l with
    | none => 0
    | some n => (n : Int)

/-- `Shopier.verifyCallback(body)`. -/
def verifyCallback (apiSecret : String) (body : CallbackBody) :
    Except ShopierError CallbackResult :=
  let data := body.random_nr ++ body.platform_order_id
  if verifySignature apiSecret data body.signature then
    .ok { success := body.status == "success",
          orderId := body.platform_order_id,
          paymentId := body.payment_id,
          installment := parseIntOr0 body.installment,
          platformOrderId := body.platform_order_id,
          status := body.status }
  else
    .error (mkSignatureValidationError "Callback signature verification failed" none)

/-- `Except.isOk` specialised to this development. -/
def isOkE {α : Type} : Except ShopierError α → Bool
  | .ok _ => true
  | .error _ => false

instance {ε α : Type} [DecidableEq ε] [DecidableEq α] : DecidableEq (Except ε α)
  | .error e, .error f =>
      if h : e = f then .isTrue (congrArg Except.error h)
      else .isFalse (fun hc => h (Except.error.inj hc))
  | .error _, .ok _ => .isFalse Except.noConfusion
  | .ok _, .error _ => .isFalse Except.noConfusion
  | .ok a, .ok b =>
      if h : a = b then .isTrue (congrArg Except.ok h)
      else .isFalse (fun hc => h (Except.ok.inj hc))

/-! ### Concrete inputs of the end-to-end scenarios -/

/-- An environment with neither credential variable set. -/
def noEnv : EnvMap := fun _ => none

/-- The configuration resolved from `{id:"k", secret:"s"}` (scenario 1). -/
def cfgScenario1 : ResolvedConfig :=
  { apiKey := "k", apiSecret := "s", language := Language.TR,
    moduleVersion := "1.0.4", websiteIndex := WebsiteIndex.SITE_1 }

def buyerScenario1 : BuyerInfo :=
  { id := some "b1", platformOrderId := none, productName := some "Plan",
    productType := none, firstName := some "Ahmet", lastName := some "Yılmaz",
    email := some "a@example.com", phone := some "05551234567", accountAge := none }

def optsScenario1 : PaymentOptions :=
  { amount := mkRat 9999 100, buyer := buyerScenario1, billing := none, shipping := none,
    currency := none, maxInstallment := none, language := none, productType := none,
    platformType := none, websiteIndex := none, isInFrame := none, randomNr := some 123456 }

/-- A buyer whose id contains a double quote (valid per `validateBuyer`). -/
def buyerQuoteId : BuyerInfo := { buyerScenario1 with id := some "x\"y" }

def optsQuoteId : PaymentOptions := { optsScenario1 with buyer := buyerQuoteId }

/-- Scenario 2's callback body, carrying the correct signature. -/
def scenario2Body : CallbackBody :=
  { random_nr := "123456", platform_order_id := "b1", payment_id := "p1",
    installment := "3", status := "success",
    signature := generateSignature "s" "123456b1" }

/-- Scenario 3's callback body: same, but with signature `"wrong"`. -/
def scenario3Body : CallbackBody := { scenario2Body with signature := "wrong" }

/-- A buyer with a missing id and a blank email (for the validator claims). -/
def buyerMissing : BuyerInfo := { buyerScenario1 with id := none, email := some " " }

/-- Same authenticated fields as scenario 2, different unauthenticated fields. -/
def scenario2BodyAlt : CallbackBody :=
  { scenario2Body with status := "failed", payment_id := "p2", installment := "9" }

/-- The payment result produced for scenario 1. -/
def scenario1Result : PaymentResult :=
  { html := renderAutoSubmitHTML (assembleFormData cfgScenario1 0 optsScenario1)
      SHOPIER_ACTION_URL (optsScenario1.language.getD cfgScenario1.language),
    formData := assembleFormData cfgScenario1 0 optsScenario1,
    actionUrl := SHOPIER_ACTION_URL,
    hiddenInputs := renderHiddenInputs (assembleFormData cfgScenario1 0 optsScenario1) }

/-! ## Infrastructure lemmas: strings and substrings -/

theorem strData_append (a b : String) : (a ++ b).data = a.data ++ b.data := rfl

theorem strMk_data (l : List Char) : (String.mk l).data = l := rfl

theorem strExt (a b : String) (h : a.data = b.data) : a = b := by
  cases a; cases b; cases h; rfl

theorem strAppend_assoc (a b c : String) : a ++ b ++ c = a ++ (b ++ c) :=
  strExt _ _ (by simp [strData_append, List.append_assoc])

theorem isPrefixB_iff : ∀ p s : List Char, isPrefixB p s = true ↔ ∃ t, s = p ++ t
  | [], s => by simp [isPrefixB]
  | _ :: _, [] => by simp [isPrefixB]
  | a :: as, b :: bs => by
      simp only [isPrefixB, Bool.and_eq_true, beq_iff_eq, List.cons_append]
      constructor
      · rintro ⟨rfl, h⟩
        obtain ⟨t, rfl⟩ := (isPrefixB_iff as bs).1 h
        exact ⟨t, rfl⟩
      · rintro ⟨t, ht⟩
        injection ht with h1 h2
        subst h1
        subst h2
        exact ⟨rfl, (isPrefixB_iff as (as ++ t)).2 ⟨t, rfl⟩⟩

theorem containsSeg_iff : ∀ p s : List Char, containsSeg p s = true ↔ ∃ a b, s = a ++ (p ++ b)
  | p, [] => by
      simp only [containsSeg, isPrefixB_iff]
      constructor
      · rintro ⟨t, ht⟩
        exact ⟨[], t, by simpa using ht⟩
      · rintro ⟨a, b, h⟩
        rcases List.append_eq_nil.1 h.symm with ⟨rfl, h2⟩
        rcases List.append_eq_nil.1 h2 with ⟨rfl, rfl⟩
        exact ⟨[], rfl⟩
  | p, c :: t => by
      simp only [containsSeg, Bool.or_eq_true, isPrefixB_iff, containsSeg_iff p t]
      constructor
      · rintro (⟨b, hb⟩ | ⟨a, b, hab⟩)
        · exact ⟨[], b, by simpa using hb⟩
        · exact ⟨c :: a, b, by simp [hab]⟩
      · rintro ⟨a, b, hab⟩
        cases a with
        | nil => exact Or.inl ⟨b, by simpa using hab⟩
        | cons a0 as =>
            injection hab with h1 h2
            exact Or.inr ⟨as, b, h2⟩

theorem strContains_of_parts (s a p b : String) (h : s = a ++ p ++ b) :
    strContains s p = true := by
  refine (containsSeg_iff p.data s.data).2 ⟨a.data, b.data, ?_⟩
  subst h
  simp [strData_append, List.append_assoc]

theorem strContains_self (p : String) : strContains p p = true :=
  (containsSeg_iff p.data p.data).2 ⟨[], [], by simp⟩

theorem strContains_trans (s q p : String) (hq : strContains s q = true)
    (hp : strContains q p = true) : strContains s p = true := by
  obtain ⟨a, b, hab⟩ := (containsSeg_iff q.data s.data).1 hq
  obtain ⟨c, d, hcd⟩ := (containsSeg_iff p.data q.data).1 hp
  exact (containsSeg_iff p.data s.data).2
    ⟨a ++ c, d ++ b, by simp [hab, hcd, List.append_assoc]⟩

theorem joinSep_mem_contains (sep : String) :
    ∀ (l : List String) (x : String), x ∈ l → strContains (joinSep sep l) x = true
  | [], x, h => absurd h (List.not_mem_nil x)
  | [y], x, h => by
      obtain rfl : x = y := by simpa using h
      simpa [joinSep] using strContains_self x
  | y :: z :: zs, x, h => by
      rcases List.mem_cons.1 h with rfl | h2
      · refine strContains_of_parts _ "" x (sep ++ joinSep sep (z :: zs)) ?_
        refine strExt _ _ ?_
        simp [joinSep, strData_append, List.append_assoc]
      · refine strContains_trans _ (joinSep sep (z :: zs)) _ ?_
          (joinSep_mem_contains sep (z :: zs) x h2)
        refine strContains_of_parts _ (y ++ sep) (joinSep sep (z :: zs)) "" ?_
        refine strExt _ _ ?_
        simp [joinSep, strData_append, List.append_assoc]

/-! ## Infrastructure lemmas: escaping -/

theorem escChar_of_not_special (c : Char) (h : c ∉ specialChars) : escChar c = String.mk [c] := by
  simp only [specialChars, List.mem_cons, List.not_mem_nil, or_false, not_or] at h
  obtain ⟨h1, h2, h3, h4, h5⟩ := h
  simp [escChar, h1, h2, h3, h4, h5]

theorem escChar_special_no_raw :
    ∀ c ∈ specialChars, ∀ d ∈ (escChar c).data, d ∉ ['<', '>', '"', apos] := by decide

theorem raw_mem_special {c : Char} (h : c ∈ ['<', '>', '"', apos]) : c ∈ specialChars :=
  List.mem_cons_of_mem '&' h

theorem escapeList_no_raw (l : List Char) (d : Char) (hd : d ∈ escapeList l) :
    d ∉ ['<', '>', '"', apos] := by
  induction l with
  | nil => cases hd
  | cons c cs ih =>
      simp only [escapeList, List.mem_append] at hd
      rcases hd with h | h
      · by_cases hc : c ∈ specialChars
        · exact escChar_special_no_raw c hc d h
        · rw [escChar_of_not_special c hc] at h
          obtain rfl : d = c := by simpa using h
          exact fun hmem => hc (raw_mem_special hmem)
      · exact ih h

theorem escChar_special_count_amp : ∀ c ∈ specialChars, (escChar c).data.count '&' = 1 := by
  decide

theorem escChar_count_amp (c : Char) :
    (escChar c).data.count '&' = (if c ∈ specialChars then 1 else 0) := by
  by_cases h : c ∈ specialChars
  · rw [if_pos h]
    exact escChar_special_count_amp c h
  · rw [if_neg h, escChar_of_not_special c h]
    have hamp : c ≠ '&' := fun hc => h (hc ▸ (by decide : '&' ∈ specialChars))
    simp [List.count_cons, hamp]

theorem escapeList_count_amp (l : List Char) :
    (escapeList l).count '&' = l.countP (· ∈ specialChars) := by
  induction l with
  | nil => rfl
  | cons c cs ih =>
      simp only [escapeList, List.count_append, ih, List.countP_cons, escChar_count_amp]
      by_cases h : c ∈ specialChars <;> simp [h, Nat.add_comm]

theorem escapeList_append (l1 l2 : List Char) :
    escapeList (l1 ++ l2) = escapeList l1 ++ escapeList l2 := by
  induction l1 with
  | nil => rfl
  | cons c cs ih => simp [escapeList, ih, List.append_assoc]

theorem escapeHtml_contains_entity (s : String) (c : Char) (hs : c ∈ s.data) :
    strContains (escapeHtml s) (escChar c) = true := by
  obtain ⟨l1, l2, h⟩ := List.append_of_mem hs
  refine (containsSeg_iff (escChar c).data (escapeHtml s).data).2
    ⟨escapeList l1, escapeList l2, ?_⟩
  show escapeList s.data = _
  rw [h, escapeList_append]
  simp [escapeList, List.append_assoc]

theorem escapeList_id_of_safe (l : List Char) (h : ∀ c ∈ l, c ∉ specialChars) :
    escapeList l = l := by
  induction l with
  | nil => rfl
  | cons c cs ih =>
      simp only [escapeList]
      rw [escChar_of_not_special c (h c (List.mem_cons_self c cs))]
      simp [ih (fun d hd => h d (List.mem_cons_of_mem c hd))]

theorem escapeHtml_id_of_safe (s : String) (h : ∀ c ∈ s.data, c ∉ specialChars) :
    escapeHtml s = s :=
  strExt _ _ (by simpa [escapeHtml] using escapeList_id_of_safe s.data h)

/-! ## Infrastructure lemmas: base64 output alphabet -/

theorem getD_mem_or {α : Type} [Inhabited α] (l : List α) (n : Nat) (d : α) :
    l.getD n d ∈ l ∨ l.getD n d = d := by
  rw [List.getD_eq_getElem?_getD]
  rcases h : l[n]? with _ | a
  · right
    simp
  · left
    simpa using List.getElem?_mem h

theorem b64Char_mem (n : Nat) : b64Char n ∈ b64Alphabet := by
  rcases getD_mem_or b64Alphabet n 'A' with h | h
  · exact h
  · rw [b64Char, h]
    decide

theorem b64Groups_chars :
    ∀ (bytes : List Nat), ∀ c ∈ b64Groups bytes, c ∈ b64Alphabet ∨ c = '='
  | _ :: _ :: _ :: rest, c, hc => by
      simp only [b64Groups, List.mem_cons] at hc
      rcases hc with rfl | rfl | rfl | rfl | h
      · exact Or.inl (b64Char_mem _)
      · exact Or.inl (b64Char_mem _)
      · exact Or.inl (b64Char_mem _)
      · exact Or.inl (b64Char_mem _)
      · exact b64Groups_chars rest c h
  | [_, _], c, hc => by
      simp only [b64Groups, List.mem_cons] at hc
      rcases hc with rfl | rfl | rfl | rfl | h
      · exact Or.inl (b64Char_mem _)
      · exact Or.inl (b64Char_mem _)
      · exact Or.inl (b64Char_mem _)
      · exact Or.inr rfl
      · cases h
  | [_], c, hc => by
      simp only [b64Groups, List.mem_cons] at hc
      rcases hc with rfl | rfl | rfl | rfl | h
      · exact Or.inl (b64Char_mem _)
      · exact Or.inl (b64Char_mem _)
      · exact Or.inr rfl
      · exact Or.inr rfl
      · cases h
  | [], c, hc => by cases hc

theorem alphabet_not_special : ∀ c ∈ b64Alphabet, c ∉ specialChars := by decide

theorem generateSignature_safe (secret data : String) :
    ∀ c ∈ (generateSignature secret data).data, c ∉ specialChars := by
  intro c hc
  rcases b64Groups_chars _ c hc with h | rfl
  · exact alphabet_not_special c h
  · decide

theorem escapeHtml_generateSignature (secret data : String) :
    escapeHtml (generateSignature secret data) = generateSignature secret data :=
  escapeHtml_id_of_safe _ (generateSignature_safe secret data)

/-! ## Infrastructure lemmas: digit strings -/

theorem digitChar_mem (d : Nat) :
    digitChar d ∈ ['0', '1', '2', '3', '4', '5', '6', '7', '8', '9', '*'] := by
  match d with
  | 0 | 1 | 2 | 3 | 4 | 5 | 6 | 7 | 8 | 9 => decide
  | n + 10 =>
      rw [show digitChar (n + 10) = '*' from rfl]
      decide

theorem digit_chars_not_special :
    ∀ c ∈ ['0', '1', '2', '3', '4', '5', '6', '7', '8', '9', '*'], c ∉ specialChars := by decide

theorem natDigitsAux_safe :
    ∀ (fuel n : Nat), ∀ c ∈ natDigitsAux fuel n, c ∉ specialChars
  | 0, _, _, hc => by cases hc
  | fuel + 1, n, c, hc => by
      simp only [natDigitsAux] at hc
      by_cases h : n < 10
      · rw [if_pos h] at hc
        obtain rfl : c = digitChar n := by simpa using hc
        exact digit_chars_not_special _ (digitChar_mem n)
      · rw [if_neg h] at hc
        rcases List.mem_append.1 hc with h2 | h2
        · exact natDigitsAux_safe fuel (n / 10) c h2
        · obtain rfl : c = digitChar (n % 10) := by simpa using h2
          exact digit_chars_not_special _ (digitChar_mem (n % 10))

theorem natToStr_safe (n : Nat) : ∀ c ∈ (natToStr n).data, c ∉ specialChars :=
  natDigitsAux_safe (n + 1) n

theorem escapeHtml_natToStr (n : Nat) : escapeHtml (natToStr n) = natToStr n :=
  escapeHtml_id_of_safe _ (natToStr_safe n)

/-! ## Infrastructure lemmas: signature verification -/

theorem verifySignature_eq_true_iff (secret data sig : String) :
    verifySignature secret data sig = true ↔
      utf8Encode sig = utf8Encode (generateSignature secret data) := by
  simp only [verifySignature]
  split
  · next hne =>
      simp only [Bool.false_eq_true, false_iff]
      intro h
      exact hne (congrArg List.length h).symm
  · next heq =>
      constructor
      · intro h
        exact (eq_of_beq h).symm
      · intro h
        rw [h]
        exact beq_self_eq_true _

theorem verifySignature_roundTrip (secret data : String) :
    verifySignature secret data (generateSignature secret data) = true :=
  (verifySignature_eq_true_iff secret data _).2 rfl

theorem verifySignature_false_of_ne (secret data sig : String)
    (h : utf8Encode sig ≠ utf8Encode (generateSignature secret data)) :
    verifySignature secret data sig = false := by
  rcases hb : verifySignature secret data sig with _ | _
  · rfl
  · exact absurd ((verifySignature_eq_true_iff secret data sig).1 hb) h

/-! ## Infrastructure lemmas: renderers -/

theorem renderHiddenInputs_contains_tag (fd : FormData) (kv : String × String)
    (h : kv ∈ fieldPairs fd) :
    strContains (renderHiddenInputs fd) (inputTag kv) = true :=
  joinSep_mem_contains "\n" _ _ (List.mem_map_of_mem inputTag h)

theorem inputTag_contains_valueAttr (kv : String × String) :
    strContains (inputTag kv) ("value=\"" ++ escapeHtml kv.2 ++ "\"") = true := by
  refine (containsSeg_iff _ _).2
    ⟨("<input type=\"hidden\" name=\"" ++ escapeHtml kv.1 ++ "\" ").data, (" />").data, ?_⟩
  show (inputTag kv).data = _
  simp [inputTag, strData_append, strMk_data, List.append_assoc]

theorem renderHiddenInputs_contains_value (fd : FormData) (kv : String × String)
    (h : kv ∈ fieldPairs fd) :
    strContains (renderHiddenInputs fd) ("value=\"" ++ escapeHtml kv.2 ++ "\"") = true :=
  strContains_trans _ _ _ (renderHiddenInputs_contains_tag fd kv h)
    (inputTag_contains_valueAttr kv)

theorem valueAttr_contains_value (v : String) :
    strContains ("value=\"" ++ v ++ "\"") v = true :=
  strContains_of_parts _ "value=\"" v "\"" rfl

theorem renderHiddenInputs_contains_value_pair (fd : FormData) (k v : String)
    (h : (k, v) ∈ fieldPairs fd) :
    strContains (renderHiddenInputs fd) ("value=\"" ++ escapeHtml v ++ "\"") = true :=
  renderHiddenInputs_contains_value fd (k, v) h

theorem html_contains_hiddenInputs (fd : FormData) (url : String) (lang : Nat) :
    strContains (renderAutoSubmitHTML fd url lang) (renderHiddenInputs fd) = true :=
  strContains_of_parts _
    (autosubmitPre ++ escapeHtml (loadingMessageFor lang) ++ autosubmitMid1 ++
      escapeHtml url ++ autosubmitMid2)
    (renderHiddenInputs fd) autosubmitTail rfl

/-! ## Infrastructure lemmas: payment-builder inversion -/

theorem buildFormData_ok_eq (cfg : ResolvedConfig) (fresh : Nat) (opts : PaymentOptions)
    (fd : FormData) (h : buildFormData cfg fresh opts = .ok fd) :
    fd = assembleFormData cfg fresh opts := by
  unfold buildFormData at h
  rcases hA : validateAmount opts.amount with eA | uA <;> rw [hA] at h
  · simp [Bind.bind, Except.bind] at h
  · rcases hB : validateBuyer opts.buyer with eB | uB <;> rw [hB] at h
    · simp [Bind.bind, Except.bind] at h
    · by_cases hI : opts.maxInstallment.getD 0 ≠ 0
      · rw [if_pos hI] at h
        rcases hV : validateInstallment (opts.maxInstallment.getD 0) with eV | uV <;>
          rw [hV] at h
        · simp [Bind.bind, Except.bind] at h
        · simpa [Bind.bind, Except.bind, pure, Except.pure] using h.symm
      · rw [if_neg hI] at h
        simpa [Bind.bind, Except.bind, pure, Except.pure] using h.symm

theorem createPayment_ok_eq (cfg : ResolvedConfig) (fresh : Nat) (opts : PaymentOptions)
    (res : PaymentResult) (h : createPayment cfg fresh opts = .ok res) :
    res = { html := renderAutoSubmitHTML (assembleFormData cfg fresh opts) SHOPIER_ACTION_URL
              (opts.language.getD cfg.language),
            formData := assembleFormData cfg fresh opts,
            actionUrl := SHOPIER_ACTION_URL,
            hiddenInputs := renderHiddenInputs (assembleFormData cfg fresh opts) } := by
  unfold createPayment at h
  rcases hB : buildFormData cfg fresh opts with e | fd <;> rw [hB] at h
  · simp [Bind.bind, Except.bind] at h
  · have hfd := buildFormData_ok_eq _ _ _ _ hB
    subst hfd
    simpa [Bind.bind, Except.bind, pure, Except.pure] using h.symm

/-! ## Infrastructure lemmas: JS parseInt -/

theorem takeWhile_nil_of_all_false {p : Char → Bool} :
    ∀ l : List Char, (∀ c ∈ l, p c = false) → l.takeWhile p = []
  | [], _ => rfl
  | c :: cs, h => by
      simp [List.takeWhile_cons, h c (List.mem_cons_self c cs)]

theorem digitsPrefixVal_none_of_nodigit (l : List Char)
    (h : ∀ c ∈ l, isAsciiDigit c = false) : digitsPrefixVal l = none := by
  simp [digitsPrefixVal, takeWhile_nil_of_all_false l h]

theorem parseIntOr0_nodigit (s : String) (h : ∀ c ∈ s.data, isAsciiDigit c = false) :
    parseIntOr0 s = 0 := by
  have hsub : ∀ c ∈ s.data.dropWhile jsWs, isAsciiDigit c = false :=
    fun c hc => h c ((List.dropWhile_sublist _).mem hc)
  simp only [parseIntOr0]
  split
  · next rest heq =>
      rw [digitsPrefixVal_none_of_nodigit]
      intro c hc
      exact hsub c (heq ▸ List.mem_cons_of_mem _ hc)
  · next rest heq =>
      rw [digitsPrefixVal_none_of_nodigit]
      intro c hc
      exact hsub c (heq ▸ List.mem_cons_of_mem _ hc)
  · next =>
      rw [digitsPrefixVal_none_of_nodigit]
      exact hsub

/-! ## Scenario 1 evaluation helpers -/

/-- Sanity check: `cfgScenario1` is what `resolveConfig` produces from the
explicit credentials `{id:"k", secret:"s"}`. -/
theorem resolveConfig_scenario1 :
    resolveConfig noEnv
      { apiKey := some "k", apiSecret := some "s", language := none,
        moduleVersion := none, websiteIndex := none } = .ok cfgScenario1 := by decide

theorem buildFormData_scenario1 :
    buildFormData cfgScenario1 0 optsScenario1 =
      .ok (assembleFormData cfgScenario1 0 optsScenario1) := by
  unfold buildFormData
  rw [show validateAmount optsScenario1.amount = .ok () by decide,
      show validateBuyer optsScenario1.buyer = .ok () by decide,
      if_neg (by decide)]
  rfl

theorem createPayment_scenario1 :
    createPayment cfgScenario1 0 optsScenario1 = .ok scenario1Result := by
  unfold createPayment
  rw [buildFormData_scenario1]
  rfl

unseal Rat.sub Rat.mul in
/-- The payment-signature message of scenario 1 evaluates to the spec's
concatenation `"123456" ++ "b1" ++ "99.99" ++ "0"`. -/
theorem scenario1_signature_message :
    natToStr 123456 ++ resolveOrderId buyerScenario1 ++ ratToString (mkRat 9999 100) ++
      natToStr Currency.TL = "123456b199.990" := by decide

theorem scenario1_signature :
    (assembleFormData cfgScenario1 0 optsScenario1).signature =
      generateSignature "s" "123456b199.990" := by
  show generateSignature "s"
      (natToStr 123456 ++ resolveOrderId buyerScenario1 ++ ratToString (mkRat 9999 100) ++
        natToStr Currency.TL) = _
  exact congrArg (generateSignature "s") scenario1_signature_message

/-! ## Claim theorems -/

/-- C1: for every secret and message, verifying the freshly generated
signature succeeds; any candidate whose UTF-8 encoding has a different byte
length than the expected signature's, or whose bytes differ anywhere, is
rejected.  `verifySignature` is a total `Bool`-valued function in this
model, mirroring the source's conversion of any comparison exception into
`false`: there is no throwing path. -/
theorem claim1_verifySignature_correct (secret message : String) :
    verifySignature secret message (generateSignature secret message) = true ∧
    ∀ candidate : String,
      ((utf8Encode candidate).length ≠ (utf8Encode (generateSignature secret message)).length ∨
        utf8Encode candidate ≠ utf8Encode (generateSignature secret message)) →
      verifySignature secret message candidate = false := by
  refine ⟨verifySignature_roundTrip secret message, ?_⟩
  intro candidate h
  refine verifySignature_false_of_ne secret message candidate ?_
  rcases h with h | h
  · exact fun he => h (congrArg List.length he)
  · exact h

/-- Witness for C1 at `secret := "s"`, `message := "m"`, candidate `""`. -/
theorem claim1_witness :
    ((utf8Encode "").length ≠ (utf8Encode (generateSignature "s" "m")).length ∨
      utf8Encode "" ≠ utf8Encode (generateSignature "s" "m")) ∧
    verifySignature "s" "m" (generateSignature "s" "m") = true ∧
    verifySignature "s" "m" "" = false :=
  have hd : (utf8Encode "").length ≠ (utf8Encode (generateSignature "s" "m")).length ∨
      utf8Encode "" ≠ utf8Encode (generateSignature "s" "m") := Or.inl (by decide)
  ⟨hd, (claim1_verifySignature_correct "s" "m").1,
    (claim1_verifySignature_correct "s" "m").2 "" hd⟩

/-- C2: for scenario 1 (credentials `k`/`s`, buyer `b1`, amount `99.99`,
currency code 0, nonce override 123456), `createPayment` emits a field set
whose signature equals `generateSignature "s" "123456b199.990"` — the HMAC
over the no-separator concatenation of nonce, order id, the decimal
rendering of the amount, and the currency code — and the auto-submit HTML
contains that exact signature inside a `value="..."` attribute. -/
theorem claim2_scenario1_signature :
    (createPayment cfgScenario1 0 optsScenario1).toOption.map
        (fun r => r.formData.signature) =
      some (generateSignature "s" "123456b199.990") ∧
    (createPayment cfgScenario1 0 optsScenario1).toOption.map
        (fun r => strContains r.html
          ("value=\"" ++ generateSignature "s" "123456b199.990" ++ "\"")) =
      some true := by
  rw [createPayment_scenario1]
  constructor
  · simp only [Except.toOption, Option.map_some]
    exact congrArg some (scenario1_signature)
  · simp only [Except.toOption, Option.map_some]
    refine congrArg some ?_
    have hfd : ("signature", (assembleFormData cfgScenario1 0 optsScenario1).signature) ∈
        fieldPairs (assembleFormData cfgScenario1 0 optsScenario1) := by
      simp [fieldPairs]
    have h1 := renderHiddenInputs_contains_value _ _ hfd
    rw [show ("signature", (assembleFormData cfgScenario1 0 optsScenario1).signature).2 =
        (assembleFormData cfgScenario1 0 optsScenario1).signature from rfl,
      scenario1_signature, escapeHtml_generateSignature] at h1
    exact strContains_trans _ _ _
      (html_contains_hiddenInputs (assembleFormData cfgScenario1 0 optsScenario1)
        SHOPIER_ACTION_URL (optsScenario1.language.getD cfgScenario1.language)) h1

/-- C3: whenever the callback signature verifies against the HMAC of the
raw concatenation `random_nr ++ platform_order_id`, `verifyCallback`
returns the decoded result: `success` iff `status` is the literal
`"success"`, `installment` the JS integer parse of the received string
(any digit-free string parses to 0 — the parse never throws), `payment_id`
and `status` passed through, and `platform_order_id` echoed into both
`orderId` and `platformOrderId`. -/
theorem claim3_callback_success (apiSecret : String) (body : CallbackBody)
    (h : verifySignature apiSecret (body.random_nr ++ body.platform_order_id) body.signature
      = true) :
    verifyCallback apiSecret body = .ok
      { success := body.status == "success",
        orderId := body.platform_order_id,
        paymentId := body.payment_id,
        installment := parseIntOr0 body.installment,
        platformOrderId := body.platform_order_id,
        status := body.status } ∧
    (∀ s : String, (∀ c ∈ s.data, isAsciiDigit c = false) → parseIntOr0 s = 0) := by
  constructor
  · simp only [verifyCallback]
    rw [if_pos h]
  · exact fun s hs => parseIntOr0_nodigit s hs

/-- Witness for C3: scenario 2's callback decodes to
`{success, "b1", "p1", 3, "b1", "success"}`. -/
theorem claim3_witness :
    verifyCallback "s" scenario2Body = .ok
      { success := true, orderId := "b1", paymentId := "p1", installment := 3,
        platformOrderId := "b1", status := "success" } :=
  (claim3_callback_success "s" scenario2Body
    (verifySignature_roundTrip "s" "123456b1")).1

/-- C4: whenever the callback signature does not verify, `verifyCallback`
throws the `SignatureValidationError` (code `SIGNATURE_VALIDATION_ERROR`)
whose detail payload is empty (`none`) — hence it contains neither the
received candidate signature nor the recomputed expected signature — and
whose safe-JSON projection likewise carries no details; the message is the
fixed literal independent of both signatures. -/
theorem claim4_callback_failure (apiSecret : String) (body : CallbackBody)
    (h : verifySignature apiSecret (body.random_nr ++ body.platform_order_id) body.signature
      = false) :
    verifyCallback apiSecret body = .error
      (mkSignatureValidationError "Callback signature verification failed" none) ∧
    (mkSignatureValidationError "Callback signature verification failed" none).code =
      "SIGNATURE_VALIDATION_ERROR" ∧
    (mkSignatureValidationError "Callback signature verification failed" none).details = none ∧
    (toSafeJSON (mkSignatureValidationError "Callback signature verification failed" none)).details
      = none := by
  refine ⟨?_, rfl, rfl, rfl⟩
  simp only [verifyCallback]
  rw [if_neg (by simp [h])]

/-- Witness for C4: scenario 3's callback (signature `"wrong"`) throws. -/
theorem claim4_witness :
    verifySignature "s" (scenario3Body.random_nr ++ scenario3Body.platform_order_id)
      scenario3Body.signature = false ∧
    verifyCallback "s" scenario3Body = .error
      (mkSignatureValidationError "Callback signature verification failed" none) :=
  have h : verifySignature "s" (scenario3Body.random_nr ++ scenario3Body.platform_order_id)
      scenario3Body.signature = false := by decide
  ⟨h, (claim4_callback_failure "s" scenario3Body h).1⟩

/-- C5 counterexample: the input `"<"` contains one of the five special
characters, yet the escaped output `"&lt;"` contains a raw `'&'` — itself
one of the five — so the output is not free of all five raw characters as
the claim states. -/
theorem claim5_counterexample :
    '<' ∈ ("<").data ∧ '&' ∈ specialChars ∧ '&' ∈ (escapeHtml "<").data := by decide

/-- C5 (amended): for every input, the escaped output contains no raw `<`,
`>`, `"`, `'`; the number of `&` characters in the output equals the
number of special characters in the input, so every `&` in the output
heads an emitted entity and no raw input character survives; for each
special character occurring in the input, the output contains the
corresponding entity; and inputs without any of the five characters pass
through unchanged. -/
theorem claim5_escape_correct (s : String) :
    (∀ c ∈ (escapeHtml s).data, c ∉ ['<', '>', '"', apos]) ∧
    ((escapeHtml s).data.count '&' = s.data.countP (· ∈ specialChars)) ∧
    (∀ c ∈ specialChars, c ∈ s.data → strContains (escapeHtml s) (escChar c) = true) ∧
    ((∀ c ∈ s.data, c ∉ specialChars) → escapeHtml s = s) := by
  refine ⟨fun c hc => escapeList_no_raw s.data c hc,
    escapeList_count_amp s.data, ?_, escapeHtml_id_of_safe s⟩
  intro c _ hs
  exact escapeHtml_contains_entity s c hs

/-- Witness for C5 at inputs `"a<b"` and `"xyz"`. -/
theorem claim5_witness :
    ('<' ∈ ("a<b").data) ∧
    strContains (escapeHtml "a<b") (escChar '<') = true ∧
    escapeHtml "xyz" = "xyz" :=
  ⟨by decide, (claim5_escape_correct "a<b").2.2.1 '<' (by decide) (by decide),
    (claim5_escape_correct "xyz").2.2.2 (by decide)⟩

unseal Rat.sub Rat.mul in
/-- C6 counterexample: a valid payment (buyer id `x"y`, nonce override
123456) whose resolved order id contains a double quote.  `createPayment`
succeeds, but the order id does not appear unchanged in the hidden-inputs
HTML (it is escaped to `x&quot;y`), refuting the claim as stated. -/
theorem claim6_counterexample :
    (createPayment cfgScenario1 0 optsQuoteId).toOption.map
      (fun r => strContains r.hiddenInputs "x\"y") = some false := by decide

/-- C6 (amended): for every payment accepted by `createPayment` with a
nonce override `N`, the emitted field set carries `N` and the resolved
order id unchanged; the plain-object rendering returns the field set
unmodified; the digit string of `N` appears verbatim in the hidden-inputs
HTML and the auto-submit HTML; and the order id appears verbatim in both
HTML outputs provided it contains none of the five HTML-escaped
characters (as the counterexample forces — an order id containing such a
character appears only entity-escaped). -/
theorem claim6_nonce_order_roundtrip (cfg : ResolvedConfig) (fresh : Nat)
    (opts : PaymentOptions) (N : Nat) (res : PaymentResult)
    (hN : opts.randomNr = some N)
    (h : createPayment cfg fresh opts = .ok res) :
    res.formData.random_nr = N ∧
    res.formData.platform_order_id = resolveOrderId opts.buyer ∧
    (getFormDataObject res.formData SHOPIER_ACTION_URL).formData = res.formData ∧
    strContains res.hiddenInputs (natToStr N) = true ∧
    strContains res.html (natToStr N) = true ∧
    ((∀ c ∈ (resolveOrderId opts.buyer).data, c ∉ specialChars) →
      strContains res.hiddenInputs (resolveOrderId opts.buyer) = true ∧
      strContains res.html (resolveOrderId opts.buyer) = true) := by
  have hres := createPayment_ok_eq _ _ _ _ h
  subst hres
  have hrn : (assembleFormData cfg fresh opts).random_nr = N := by
    show opts.randomNr.getD fresh = N
    rw [hN]
    rfl
  have hhtml : ∀ p : String,
      strContains (renderHiddenInputs (assembleFormData cfg fresh opts)) p = true →
      strContains (renderAutoSubmitHTML (assembleFormData cfg fresh opts) SHOPIER_ACTION_URL
        (opts.language.getD cfg.language)) p = true :=
    fun p hp => strContains_trans _ _ _
      (html_contains_hiddenInputs (assembleFormData cfg fresh opts) SHOPIER_ACTION_URL
        (opts.language.getD cfg.language)) hp
  have hN1 : strContains (renderHiddenInputs (assembleFormData cfg fresh opts))
      (natToStr N) = true := by
    have hkv : ("random_nr", natToStr (assembleFormData cfg fresh opts).random_nr) ∈
        fieldPairs (assembleFormData cfg fresh opts) := by simp [fieldPairs]
    have h1 := renderHiddenInputs_contains_value_pair _ _ _ hkv
    rw [hrn, escapeHtml_natToStr] at h1
    exact strContains_trans _ _ _ h1 (valueAttr_contains_value (natToStr N))
  refine ⟨hrn, rfl, rfl, hN1, hhtml _ hN1, ?_⟩
  intro hsafe
  have hO1 : strContains (renderHiddenInputs (assembleFormData cfg fresh opts))
      (resolveOrderId opts.buyer) = true := by
    have hkv : ("platform_order_id", (assembleFormData cfg fresh opts).platform_order_id) ∈
        fieldPairs (assembleFormData cfg fresh opts) := by simp [fieldPairs]
    have h1 := renderHiddenInputs_contains_value_pair _ _ _ hkv
    rw [show (assembleFormData cfg fresh opts).platform_order_id =
        resolveOrderId opts.buyer from rfl, escapeHtml_id_of_safe _ hsafe] at h1
    exact strContains_trans _ _ _ h1 (valueAttr_contains_value (resolveOrderId opts.buyer))
  exact ⟨hO1, hhtml _ hO1⟩

/-- Witness for C6 at scenario 1 (order id `"b1"`, safe). -/
theorem claim6_witness :
    optsScenario1.randomNr = some 123456 ∧
    createPayment cfgScenario1 0 optsScenario1 = .ok scenario1Result ∧
    scenario1Result.formData.random_nr = 123456 ∧
    scenario1Result.formData.platform_order_id = resolveOrderId optsScenario1.buyer ∧
    strContains scenario1Result.hiddenInputs (natToStr 123456) = true ∧
    strContains scenario1Result.html (natToStr 123456) = true ∧
    strContains scenario1Result.hiddenInputs (resolveOrderId optsScenario1.buyer) = true :=
  have hth := claim6_nonce_order_roundtrip cfgScenario1 0 optsScenario1 123456 scenario1Result
    rfl createPayment_scenario1
  ⟨rfl, createPayment_scenario1, hth.1, hth.2.1, hth.2.2.2.1, hth.2.2.2.2.1,
    (hth.2.2.2.2.2 (by decide)).1⟩

/-- C7: per credential field the trimmed explicit value wins when non-blank
after trimming; otherwise the trimmed environment value is used when
non-blank after trimming; otherwise the credential is absent (a blank or
missing environment value yields `none`).  `resolveConfig` maps an absent
id to `InvalidApiKeyError` — even when the secret is absent as well, since
the id is checked first — and an absent secret with a present id to
`InvalidApiSecretError`. -/
theorem claim7_config_resolution (env : EnvMap) (config : ShopierConfig) :
    (∀ s : String, jsTrim s ≠ "" →
      resolveApiKey env (some s) = some (jsTrim s) ∧
      resolveApiSecret env (some s) = some (jsTrim s)) ∧
    (∀ v : Option String, (∀ s, v = some s → jsTrim s = "") →
      (∀ e, env "SHOPIER_API_KEY" = some e → jsTrim e ≠ "" →
        resolveApiKey env v = some (jsTrim e)) ∧
      (∀ e, env "SHOPIER_API_SECRET" = some e → jsTrim e ≠ "" →
        resolveApiSecret env v = some (jsTrim e)) ∧
      ((∀ e, env "SHOPIER_API_KEY" = some e → jsTrim e = "") →
        resolveApiKey env v = none) ∧
      ((∀ e, env "SHOPIER_API_SECRET" = some e → jsTrim e = "") →
        resolveApiSecret env v = none)) ∧
    (resolveApiKey env config.apiKey = none →
      resolveConfig env config =
        .error (mkInvalidApiKeyError "API key is missing or empty" none)) ∧
    (∀ k : String, resolveApiKey env config.apiKey = some k →
      resolveApiSecret env config.apiSecret = none →
      resolveConfig env config =
        .error (mkInvalidApiSecretError "API secret is missing or empty" none)) := by
  have hblank : ∀ v : Option String, (∀ s, v = some s → jsTrim s = "") →
      trimmedNonBlank v = none := by
    intro v hv
    match v with
    | none => rfl
    | some s =>
        have hs := hv s rfl
        simp [trimmedNonBlank, hs]
  have hwin : ∀ s : String, jsTrim s ≠ "" → trimmedNonBlank (some s) = some (jsTrim s) := by
    intro s hs
    have hne : s ≠ "" := by
      intro he
      exact hs (by rw [he]; rfl)
    simp [trimmedNonBlank, hne, hs]
  refine ⟨?_, ?_, ?_, ?_⟩
  · intro s hs
    constructor <;> simp [resolveApiKey, resolveApiSecret, hwin s hs]
  · intro v hv
    refine ⟨?_, ?_, ?_, ?_⟩
    · intro e he hne
      simp [resolveApiKey, hblank v hv, he, hwin e hne]
    · intro e he hne
      simp [resolveApiSecret, hblank v hv, he, hwin e hne]
    · intro henv
      have : trimmedNonBlank (env "SHOPIER_API_KEY") = none := hblank _ henv
      simp [resolveApiKey, hblank v hv, this]
    · intro henv
      have : trimmedNonBlank (env "SHOPIER_API_SECRET") = none := hblank _ henv
      simp [resolveApiSecret, hblank v hv, this]
  · intro hk
    simp only [resolveConfig]
    rw [hk]
  · intro k hk hs
    simp only [resolveConfig]
    rw [hk, hs]

/-- Witness for C7: explicit blank-after-trim value, empty environment,
empty configuration — scenario 4's double-absence reports the key error. -/
theorem claim7_witness :
    jsTrim " k " ≠ "" ∧
    resolveApiKey noEnv (some " k ") = some "k" ∧
    resolveApiKey noEnv emptyShopierConfig.apiKey = none ∧
    resolveConfig noEnv emptyShopierConfig =
      .error (mkInvalidApiKeyError "API key is missing or empty" none) :=
  have hth := claim7_config_resolution noEnv emptyShopierConfig
  ⟨by decide,
    by rw [(hth.1 " k " (by decide)).1]; decide,
    by decide,
    hth.2.2.1 (by decide)⟩

/-- The equation of `validateBuyer`'s per-field accumulator. -/
theorem mem_if_blank {k n : String} {v : Option String} :
    ((if blankOpt v then some k else none) = some n) ↔ (n = k ∧ blankOpt v = true) := by
  by_cases hb : blankOpt v = true
  · simp [hb, eq_comm]
  · simp [hb]

/-- C8: when at least one required buyer field is missing or blank,
`validateBuyer` throws a `ValidationError` whose `missingFields` detail
contains exactly the names of the missing/blank fields, and only when all
six are present does it check the email shape and then the phone shape,
throwing distinct `ValidationError`s carrying the offending field name and
raw value. -/
theorem claim8_validateBuyer (b : BuyerInfo) :
    (missingFields b ≠ [] →
      validateBuyer b = .error (mkValidationError
        ("Missing required buyer fields: " ++ joinSep ", " (missingFields b))
        (some [("missingFields", DetailVal.strList (missingFields b))])) ∧
      (∀ n : String, n ∈ missingFields b ↔
        ((n = "id" ∧ blankOpt b.id = true) ∨
         (n = "firstName" ∧ blankOpt b.firstName = true) ∨
         (n = "lastName" ∧ blankOpt b.lastName = true) ∨
         (n = "email" ∧ blankOpt b.email = true) ∨
         (n = "phone" ∧ blankOpt b.phone = true) ∨
         (n = "productName" ∧ blankOpt b.productName = true)))) ∧
    (missingFields b = [] →
      (validateEmail (b.email.getD "") = false →
        validateBuyer b = .error (mkValidationError "Invalid email format"
          (some [("field", DetailVal.str "email"),
                 ("value", DetailVal.str (b.email.getD ""))]))) ∧
      (validateEmail (b.email.getD "") = true → validatePhone (b.phone.getD "") = false →
        validateBuyer b = .error (mkValidationError "Invalid phone number format"
          (some [("field", DetailVal.str "phone"),
                 ("value", DetailVal.str (b.phone.getD ""))]))) ∧
      (validateEmail (b.email.getD "") = true → validatePhone (b.phone.getD "") = true →
        validateBuyer b = .ok ())) := by
  constructor
  · intro hne
    constructor
    · unfold validateBuyer
      rw [if_pos hne]
    · intro n
      simp only [missingFields, requiredPairs, List.mem_filterMap, List.mem_cons,
        List.not_mem_nil, or_false]
      constructor
      · rintro ⟨a, ha, hfa⟩
        rcases ha with rfl | rfl | rfl | rfl | rfl | rfl <;>
          · rw [mem_if_blank] at hfa
            tauto
      · rintro (⟨rfl, hb⟩ | ⟨rfl, hb⟩ | ⟨rfl, hb⟩ | ⟨rfl, hb⟩ | ⟨rfl, hb⟩ | ⟨rfl, hb⟩)
        · exact ⟨("id", b.id), by simp, by simp [hb]⟩
        · exact ⟨("firstName", b.firstName), by simp, by simp [hb]⟩
        · exact ⟨("lastName", b.lastName), by simp, by simp [hb]⟩
        · exact ⟨("email", b.email), by simp, by simp [hb]⟩
        · exact ⟨("phone", b.phone), by simp, by simp [hb]⟩
        · exact ⟨("productName", b.productName), by simp, by simp [hb]⟩
  · intro hmt
    refine ⟨?_, ?_, ?_⟩
    · intro hem
      simp [validateBuyer, hmt, hem]
    · intro hem hph
      simp [validateBuyer, hmt, hem, hph]
    · intro hem hph
      simp [validateBuyer, hmt, hem, hph]

/-- Witness for C8: `buyerMissing` (no id, blank email) and the valid
scenario-1 buyer. -/
theorem claim8_witness :
    missingFields buyerMissing ≠ [] ∧
    validateBuyer buyerMissing = .error (mkValidationError
      "Missing required buyer fields: id, email"
      (some [("missingFields", DetailVal.strList ["id", "email"])])) ∧
    ("email" ∈ missingFields buyerMissing) ∧
    validateBuyer buyerScenario1 = .ok () := by
  have h1 := (claim8_validateBuyer buyerMissing).1 (by decide)
  have h2 := (claim8_validateBuyer buyerScenario1).2 (by decide)
  refine ⟨by decide, ?_, ?_, h2.2.2 (by decide) (by decide)⟩
  · rw [h1.1]
    rfl
  · refine (h1.2 "email").2 ?_
    right; right; right; left
    exact ⟨rfl, by decide⟩

/-- C9: `ConfigManager.updateConfig` is not atomic — with a resolvable new
api key and an api secret update that resolves to absent, it throws
`InvalidApiSecretError` only after the stored key has been replaced: the
post-call configuration carries the new key and the old secret. -/
theorem claim9_updateConfig_not_atomic (env : EnvMap) (cfg : ResolvedConfig)
    (knew snew kres : String)
    (hk : resolveApiKey env (some knew) = some kres)
    (hs : resolveApiSecret env (some snew) = none) :
    updateConfig env cfg
      { apiKey := some knew, apiSecret := some snew, language := none,
        moduleVersion := none, websiteIndex := none } =
      (.error (mkInvalidApiSecretError "API secret is missing or empty" none),
        { cfg with apiKey := kres }) ∧
    ({ cfg with apiKey := kres }).apiKey = kres ∧
    ({ cfg with apiKey := kres }).apiSecret = cfg.apiSecret := by
  refine ⟨?_, rfl, rfl⟩
  simp only [updateConfig]
  rw [hk]
  simp only [updateAfterKey]
  rw [hs]

/-- Witness for C9 at `cfgScenario1`, new key `"newKey"`, blank secret. -/
theorem claim9_witness :
    resolveApiKey noEnv (some "newKey") = some "newKey" ∧
    resolveApiSecret noEnv (some " ") = none ∧
    updateConfig noEnv cfgScenario1
      { apiKey := some "newKey", apiSecret := some " ", language := none,
        moduleVersion := none, websiteIndex := none } =
      (.error (mkInvalidApiSecretError "API secret is missing or empty" none),
        { cfgScenario1 with apiKey := "newKey" }) :=
  ⟨by decide, by decide,
    (claim9_updateConfig_not_atomic noEnv cfgScenario1 "newKey" " " "newKey"
      (by decide) (by decide)).1⟩

/-- C10: the accept/reject decision of `verifyCallback` depends only on
`random_nr`, `platform_order_id` and `signature` — two notifications that
agree on those three fields are either both accepted or both rejected —
and on acceptance the unauthenticated `status`, `payment_id` and
`installment` are taken from the notification as received (installment via
the integer parse of the received string). -/
theorem claim10_verifyCallback_depends (apiSecret : String) (b1 b2 : CallbackBody)
    (h1 : b1.random_nr = b2.random_nr) (h2 : b1.platform_order_id = b2.platform_order_id)
    (h3 : b1.signature = b2.signature) :
    isOkE (verifyCallback apiSecret b1) = isOkE (verifyCallback apiSecret b2) ∧
    (∀ r : CallbackResult, verifyCallback apiSecret b1 = .ok r →
      r.status = b1.status ∧ r.paymentId = b1.payment_id ∧
      r.installment = parseIntOr0 b1.installment ∧ r.success = (b1.status == "success")) := by
  constructor
  · simp only [verifyCallback, h1, h2, h3]
    by_cases hv : verifySignature apiSecret (b2.random_nr ++ b2.platform_order_id)
        b2.signature = true
    · rw [if_pos hv, if_pos hv]
      rfl
    · rw [if_neg hv, if_neg hv]
  · intro r hr
    simp only [verifyCallback] at hr
    split at hr
    · have := Except.ok.inj hr
      subst this
      exact ⟨rfl, rfl, rfl, rfl⟩
    · exact Except.noConfusion hr

/-- Witness for C10: scenario 2's body and a variant differing only in
status, payment id and installment. -/
theorem claim10_witness :
    scenario2Body.random_nr = scenario2BodyAlt.random_nr ∧
    scenario2Body.platform_order_id = scenario2BodyAlt.platform_order_id ∧
    scenario2Body.signature = scenario2BodyAlt.signature ∧
    isOkE (verifyCallback "s" scenario2Body) = isOkE (verifyCallback "s" scenario2BodyAlt) :=
  ⟨rfl, rfl, rfl,
    (claim10_verifyCallback_depends "s" scenario2Body scenario2BodyAlt rfl rfl rfl).1⟩

end Shopier
